import Mathlib

/-!
# Verification of the hikari entity-factory transcoding layer

This file shallowly embeds the decode/encode surface of
`src/hikari/api/entity_factory.py` (the `IEntityFactoryComponent`
interface and the `GatewayGuildDefinition` aggregate).  The repository
snapshot contains only the abstract interface with its documented
contracts; the concrete decode bodies are modelled from the
specification's description of the resolution and dispatch algorithms,
as marked on each definition.
-/

deriving instance DecidableEq for Except

namespace EntityFactory

/-- A snowflake identifier: a 64-bit unique id; modelled as `Nat`. -/
abbrev Snowflake : Type := Nat

/-- A JSON value as delivered on the wire: null, boolean, number,
string, array or object.  Objects are ordered association lists, so a
key may be absent, present-but-null, or present with a value. -/
inductive JSON where
  | null
  | bool (b : Bool)
  | num (n : Int)
  | str (s : String)
  | arr (elems : List JSON)
  | obj (fields : List (String × JSON))

/-- A JSON object payload: an ordered mapping from string keys to values. -/
abbrev JSONObject : Type := List (String × JSON)

/-- The three-state sentinel threaded through every optional context
parameter (`hikari.utilities.undefined`): distinct from `null` and from
any real value, so a caller can distinguish "not provided at all" from
any provided value. -/
inductive UndefinedOr (α : Type) where
  | undefined
  | defined (value : α)
deriving DecidableEq

/-- The decode error surface: `missingContext` when a required
identity-resolution field is absent from both payload and context, and
`malformedPayload` for every other schema violation (wrong JSON type,
missing required non-contextual field).  Each carries the offending
field name. -/
inductive DecodeError where
  | missingContext (field : String)
  | malformedPayload (field : String)
deriving DecidableEq

/-- Decimal digit value of a character, if it is a digit. -/
def digitVal (c : Char) : Option Nat :=
  if c.isDigit then some (c.toNat - 48) else none

/-- Parse a non-empty all-digit character list into a natural number. -/
def parseNatAux : List Char → Nat → Option Nat
  | [], acc => some acc
  | c :: rest, acc =>
    match digitVal c with
    | some d => parseNatAux rest (acc * 10 + d)
    | none => none

/-- Parse a decimal snowflake string into its numeric value. -/
def parseSnowflakeText (s : String) : Option Nat :=
  match s.data with
  | [] => none
  | c :: rest => parseNatAux (c :: rest) 0

/-- Look a key up in a payload; `none` means the key is absent (which is
distinct from the key being present with value `JSON.null`). -/
def lookupField : JSONObject → String → Option JSON
  | [], _ => none
  | (k, v) :: rest, key => if k = key then some v else lookupField rest key

/-- Whether a key is present in the payload at all. -/
def hasKey (p : JSONObject) (key : String) : Bool :=
  (lookupField p key).isSome

/-- Read a required snowflake field (delivered as a decimal string). -/
def requireSnowflake (p : JSONObject) (key : String) : Except DecodeError Snowflake :=
  match lookupField p key with
  | some (.str s) =>
    match parseSnowflakeText s with
    | some n => .ok n
    | none => .error (.malformedPayload key)
  | some _ => .error (.malformedPayload key)
  | none => .error (.malformedPayload key)

/-- Read a required integer field. -/
def requireInt (p : JSONObject) (key : String) : Except DecodeError Int :=
  match lookupField p key with
  | some (.num n) => .ok n
  | some _ => .error (.malformedPayload key)
  | none => .error (.malformedPayload key)

/-- Read a required string field. -/
def requireString (p : JSONObject) (key : String) : Except DecodeError String :=
  match lookupField p key with
  | some (.str s) => .ok s
  | some _ => .error (.malformedPayload key)
  | none => .error (.malformedPayload key)

/-- Read an optional string field (absent or null map to `none`). -/
def optString (p : JSONObject) (key : String) : Option String :=
  match lookupField p key with
  | some (.str s) => some s
  | _ => none

/-- Read a required-key but nullable string field. -/
def nullableString (p : JSONObject) (key : String) : Except DecodeError (Option String) :=
  match lookupField p key with
  | some (.str s) => .ok (some s)
  | some .null => .ok none
  | some _ => .error (.malformedPayload key)
  | none => .error (.malformedPayload key)

/-- Read an optional, nullable snowflake field. -/
def optSnowflakeField (p : JSONObject) (key : String) : Except DecodeError (Option Snowflake) :=
  match lookupField p key with
  | none => .ok none
  | some .null => .ok none
  | some (.str s) =>
    match parseSnowflakeText s with
    | some n => .ok (some n)
    | none => .error (.malformedPayload key)
  | some _ => .error (.malformedPayload key)

/-- Read an optional boolean field, defaulting when absent or ill-typed
(mirrors a raw `payload.get(key, False)` access). -/
def optBoolD (p : JSONObject) (key : String) : Bool :=
  match lookupField p key with
  | some (.bool b) => b
  | _ => false

/-- Modelled from the spec: the field-resolution contract of §4.1 for a
context snowflake.  Resolution order: (a) if the context value is
supplied (not the unspecified sentinel), use it; (b) else look the field
up by name in the payload; (c) else fail with `missingContext`. -/
def resolveContextSnowflake (p : JSONObject) (key : String)
    (ctx : UndefinedOr Snowflake) : Except DecodeError Snowflake :=
  match ctx with
  | .defined g => .ok g
  | .undefined =>
    match lookupField p key with
    | some (.str s) =>
      match parseSnowflakeText s with
      | some n => .ok n
      | none => .error (.malformedPayload key)
    | some _ => .error (.malformedPayload key)
    | none => .error (.missingContext key)

/-! ## Channel models and decoders -/

/-- The common partial-channel shape shared by every channel variant:
id, integer type discriminant, optional name. -/
structure PartialChannel where
  id : Snowflake
  type : Int
  name : Option String
deriving DecidableEq

/-- The channel entity as a tagged union: the generic partial shape plus
the seven concrete variants (two private, five guild-scoped). -/
inductive Channel where
  | partialOnly (base : PartialChannel)
  | privateText (base : PartialChannel) (lastMessageId : Option Snowflake)
  | groupPrivateText (base : PartialChannel) (lastMessageId : Option Snowflake)
  | guildCategory (base : PartialChannel) (guildId : Snowflake)
  | guildText (base : PartialChannel) (guildId : Snowflake) (lastMessageId : Option Snowflake)
  | guildNews (base : PartialChannel) (guildId : Snowflake) (lastMessageId : Option Snowflake)
  | guildStore (base : PartialChannel) (guildId : Snowflake)
  | guildVoice (base : PartialChannel) (guildId : Snowflake)
deriving DecidableEq

/-- The variant tag of a decoded channel. -/
inductive ChannelTag where
  | partialOnly
  | privateText
  | groupPrivateText
  | guildCategory
  | guildText
  | guildNews
  | guildStore
  | guildVoice
deriving DecidableEq

/-- Which variant a channel value is tagged with. -/
def Channel.tag : Channel → ChannelTag
  | .partialOnly _ => .partialOnly
  | .privateText _ _ => .privateText
  | .groupPrivateText _ _ => .groupPrivateText
  | .guildCategory _ _ => .guildCategory
  | .guildText _ _ _ => .guildText
  | .guildNews _ _ _ => .guildNews
  | .guildStore _ _ => .guildStore
  | .guildVoice _ _ => .guildVoice

/-- The resolved guild id of a channel, when its variant carries one. -/
def Channel.guildIdOf : Channel → Option Snowflake
  | .guildCategory _ g => some g
  | .guildText _ g _ => some g
  | .guildNews _ g _ => some g
  | .guildStore _ g => some g
  | .guildVoice _ g => some g
  | _ => none

/-- The id of the decoded channel (from the common partial shape). -/
def Channel.channelId : Channel → Snowflake
  | .partialOnly b => b.id
  | .privateText b _ => b.id
  | .groupPrivateText b _ => b.id
  | .guildCategory b _ => b.id
  | .guildText b _ _ => b.id
  | .guildNews b _ _ => b.id
  | .guildStore b _ => b.id
  | .guildVoice b _ => b.id

/-- Modelled from the spec: `deserialize_partial_channel` (implementation
absent from src/, only the interface is shown).  Reads the common
partial-channel shape: required id and type, optional name. -/
def deserialize_partial_channel (p : JSONObject) : Except DecodeError PartialChannel := do
  let id ← requireSnowflake p "id"
  let t ← requireInt p "type"
  .ok ⟨id, t, optString p "name"⟩

/-- Modelled from the spec: `deserialize_private_text_channel`
(implementation absent from src/).  No guild context is involved. -/
def deserialize_private_text_channel (p : JSONObject) : Except DecodeError Channel := do
  let base ← deserialize_partial_channel p
  let lm ← optSnowflakeField p "last_message_id"
  .ok (.privateText base lm)

/-- Modelled from the spec: `deserialize_private_group_text_channel`
(implementation absent from src/).  No guild context is involved. -/
def deserialize_private_group_text_channel (p : JSONObject) : Except DecodeError Channel := do
  let base ← deserialize_partial_channel p
  let lm ← optSnowflakeField p "last_message_id"
  .ok (.groupPrivateText base lm)

/-- Modelled from the spec: `deserialize_guild_category` (implementation
absent from src/).  The guild id is resolved by §4.1 context injection
against the payload's own "guild_id" field. -/
def deserialize_guild_category (p : JSONObject)
    (guild_id : UndefinedOr Snowflake) : Except DecodeError Channel := do
  let gid ← resolveContextSnowflake p "guild_id" guild_id
  let base ← deserialize_partial_channel p
  .ok (.guildCategory base gid)

/-- Modelled from the spec: `deserialize_guild_text_channel`
(implementation absent from src/).  The guild id is resolved by §4.1
context injection against the payload's own "guild_id" field. -/
def deserialize_guild_text_channel (p : JSONObject)
    (guild_id : UndefinedOr Snowflake) : Except DecodeError Channel := do
  let gid ← resolveContextSnowflake p "guild_id" guild_id
  let base ← deserialize_partial_channel p
  let lm ← optSnowflakeField p "last_message_id"
  .ok (.guildText base gid lm)

/-- Modelled from the spec: `deserialize_guild_news_channel`
(implementation absent from src/). -/
def deserialize_guild_news_channel (p : JSONObject)
    (guild_id : UndefinedOr Snowflake) : Except DecodeError Channel := do
  let gid ← resolveContextSnowflake p "guild_id" guild_id
  let base ← deserialize_partial_channel p
  let lm ← optSnowflakeField p "last_message_id"
  .ok (.guildNews base gid lm)

/-- Modelled from the spec: `deserialize_guild_store_channel`
(implementation absent from src/). -/
def deserialize_guild_store_channel (p : JSONObject)
    (guild_id : UndefinedOr Snowflake) : Except DecodeError Channel := do
  let gid ← resolveContextSnowflake p "guild_id" guild_id
  let base ← deserialize_partial_channel p
  .ok (.guildStore base gid)

/-- Modelled from the spec: `deserialize_guild_voice_channel`
(implementation absent from src/). -/
def deserialize_guild_voice_channel (p : JSONObject)
    (guild_id : UndefinedOr Snowflake) : Except DecodeError Channel := do
  let gid ← resolveContextSnowflake p "guild_id" guild_id
  let base ← deserialize_partial_channel p
  .ok (.guildVoice base gid)

/-- Modelled from the spec: `deserialize_channel`, the single entry point
of §4.2 (implementation absent from src/).  Dispatches purely on the
integer "type" discriminant: the 7 known values select their variant
decoder; any unrecognized integer decodes the generic partial shape only
and raises no error.  The guild id context is ignored for the DM and
group-DM branches. -/
def deserialize_channel (p : JSONObject)
    (guild_id : UndefinedOr Snowflake) : Except DecodeError Channel :=
  match requireInt p "type" with
  | .error e => .error e
  | .ok t =>
    if t = 0 then deserialize_guild_text_channel p guild_id
    else if t = 1 then deserialize_private_text_channel p
    else if t = 2 then deserialize_guild_voice_channel p guild_id
    else if t = 3 then deserialize_private_group_text_channel p
    else if t = 4 then deserialize_guild_category p guild_id
    else if t = 5 then deserialize_guild_news_channel p guild_id
    else if t = 6 then deserialize_guild_store_channel p guild_id
    else Except.map Channel.partialOnly (deserialize_partial_channel p)

example : deserialize_channel [("id", .str "1"), ("type", .num 0), ("guild_id", .str "999")] (.defined 456)
    = .ok (.guildText ⟨1, 0, none⟩ 456 none) := by decide

example : deserialize_channel [("id", .str "1"), ("type", .num 99)] (.defined 456)
    = .ok (.partialOnly ⟨1, 99, none⟩) := by decide

example : deserialize_guild_text_channel [("id", .str "1"), ("type", .num 0)] .undefined
    = .error (.missingContext "guild_id") := by decide

/-! ## User, member, presence, voice-state and role models -/

/-- A user entity (the fields relevant to context threading). -/
structure User where
  id : Snowflake
  username : String
deriving DecidableEq

/-- A guild member: the user, the resolved guild id and the nickname. -/
structure Member where
  user : User
  guildId : Snowflake
  nickname : Option String
deriving DecidableEq

/-- A member presence: the user id, the resolved guild id and the
visible status string. -/
structure MemberPresence where
  userId : Snowflake
  guildId : Snowflake
  visibleStatus : String
deriving DecidableEq

/-- A voice state: resolved guild id, nullable channel id, user id and
the resolved member. -/
structure VoiceState where
  guildId : Snowflake
  channelId : Option Snowflake
  userId : Snowflake
  member : Member
deriving DecidableEq

/-- A guild role, carrying the mandatorily supplied guild id. -/
structure Role where
  id : Snowflake
  name : String
  guildId : Snowflake
deriving DecidableEq

/-- Modelled from the spec: `deserialize_user` (implementation absent
from src/).  Requires id and username. -/
def deserialize_user (p : JSONObject) : Except DecodeError User := do
  let id ← requireSnowflake p "id"
  let name ← requireString p "username"
  .ok ⟨id, name⟩

/-- Modelled from the spec: §4.1 context injection for the member's user
sub-object: a supplied user context wins; else the payload's "user"
object is decoded; else the decode fails with `missingContext`. -/
def resolveUser (p : JSONObject) (user : UndefinedOr User) : Except DecodeError User :=
  match user with
  | .defined u => .ok u
  | .undefined =>
    match lookupField p "user" with
    | some (.obj up) => deserialize_user up
    | some _ => .error (.malformedPayload "user")
    | none => .error (.missingContext "user")

/-- Modelled from the spec: `deserialize_member` (implementation absent
from src/).  Guild id and user are both resolved by §4.1 context
injection. -/
def deserialize_member (p : JSONObject) (user : UndefinedOr User)
    (guild_id : UndefinedOr Snowflake) : Except DecodeError Member := do
  let gid ← resolveContextSnowflake p "guild_id" guild_id
  let u ← resolveUser p user
  .ok ⟨u, gid, optString p "nick"⟩

/-- The user id carried by a presence payload's "user" sub-object. -/
def presenceUserId (p : JSONObject) : Except DecodeError Snowflake :=
  match lookupField p "user" with
  | some (.obj up) => requireSnowflake up "id"
  | some _ => .error (.malformedPayload "user")
  | none => .error (.malformedPayload "user")

/-- Modelled from the spec: `deserialize_member_presence` (implementation
absent from src/).  The guild id is resolved by §4.1 context injection;
the user id and status come from the payload. -/
def deserialize_member_presence (p : JSONObject)
    (guild_id : UndefinedOr Snowflake) : Except DecodeError MemberPresence := do
  let gid ← resolveContextSnowflake p "guild_id" guild_id
  let uid ← presenceUserId p
  let status ← requireString p "status"
  .ok ⟨uid, gid, status⟩

/-- Modelled from the spec: §4.5 resolution of the voice state's member:
a supplied member context wins; else the payload's "member" object is
decoded (threading the already-resolved guild id); else the decode fails
with `missingContext` on the member, distinct from the guild-id
failure. -/
def resolveVoiceStateMember (p : JSONObject) (member : UndefinedOr Member)
    (gid : Snowflake) : Except DecodeError Member :=
  match member with
  | .defined m => .ok m
  | .undefined =>
    match lookupField p "member" with
    | some (.obj mp) => deserialize_member mp .undefined (.defined gid)
    | some _ => .error (.malformedPayload "member")
    | none => .error (.missingContext "member")

/-- Modelled from the spec: `deserialize_voice_state` (implementation
absent from src/).  Requires both a guild id and a member, each with two
independent candidate sources (payload field vs. supplied context) under
the same override-precedence rule; the guild id is resolved first. -/
def deserialize_voice_state (p : JSONObject)
    (guild_id : UndefinedOr Snowflake) (member : UndefinedOr Member) :
    Except DecodeError VoiceState := do
  let gid ← resolveContextSnowflake p "guild_id" guild_id
  let mem ← resolveVoiceStateMember p member gid
  let uid ← requireSnowflake p "user_id"
  let cid ← optSnowflakeField p "channel_id"
  .ok ⟨gid, cid, uid, mem⟩

/-- Modelled from the spec: `deserialize_role` (implementation absent
from src/).  The guild id parameter is mandatory in the interface and is
attached to the role directly. -/
def deserialize_role (p : JSONObject) (guild_id : Snowflake) : Except DecodeError Role := do
  let id ← requireSnowflake p "id"
  let name ← requireString p "name"
  .ok ⟨id, name, guild_id⟩

/-! ## Emoji models and decoders -/

/-- A unicode emoji: identified by its literal unicode name string. -/
structure UnicodeEmoji where
  name : String
deriving DecidableEq

/-- A custom emoji: snowflake id, nullable name, animation flag. -/
structure CustomEmoji where
  id : Snowflake
  name : Option String
  isAnimated : Bool
deriving DecidableEq

/-- A known custom emoji: a custom emoji enriched with the resolved
guild id and the optional creator user. -/
structure KnownCustomEmoji where
  id : Snowflake
  name : Option String
  isAnimated : Bool
  guildId : Snowflake
  user : Option User
deriving DecidableEq

/-- The two emoji shapes returned by the single dispatch operation. -/
inductive Emoji where
  | unicode (e : UnicodeEmoji)
  | custom (e : CustomEmoji)
deriving DecidableEq

/-- Whether an emoji value is the unicode variant. -/
def Emoji.isUnicode : Emoji → Bool
  | .unicode _ => true
  | .custom _ => false

/-- Modelled from the spec: `deserialize_unicode_emoji` (implementation
absent from src/).  Reads the literal unicode string. -/
def deserialize_unicode_emoji (p : JSONObject) : Except DecodeError UnicodeEmoji := do
  let n ← requireString p "name"
  .ok ⟨n⟩

/-- Modelled from the spec: `deserialize_custom_emoji` (implementation
absent from src/).  Requires the snowflake id; the name key is required
but nullable; the animation flag defaults to false when absent. -/
def deserialize_custom_emoji (p : JSONObject) : Except DecodeError CustomEmoji := do
  let id ← requireSnowflake p "id"
  let name ← nullableString p "name"
  .ok ⟨id, name, optBoolD p "animated"⟩

/-- The optional creator user sub-object of an emoji payload. -/
def optUserField (p : JSONObject) : Except DecodeError (Option User) :=
  match lookupField p "user" with
  | none => .ok none
  | some (.obj up) => Except.map some (deserialize_user up)
  | some _ => .error (.malformedPayload "user")

/-- Modelled from the spec: `deserialize_known_custom_emoji`.  Per the
interface in src/, the `guild_id` context parameter is mandatory (no
unspecified sentinel in its type) and provides the "context based
artificial guild_id attribute" of the result; the payload's own
"guild_id" field is never consulted. -/
def deserialize_known_custom_emoji (p : JSONObject)
    (guild_id : Snowflake) : Except DecodeError KnownCustomEmoji := do
  let id ← requireSnowflake p "id"
  let name ← nullableString p "name"
  let user ← optUserField p
  .ok ⟨id, name, optBoolD p "animated", guild_id, user⟩

/-- Modelled from the spec: `deserialize_emoji`, the §4.3 dispatch
(implementation absent from src/).  Chooses the variant solely by the
presence of the "id" key: absent means unicode, present means custom. -/
def deserialize_emoji (p : JSONObject) : Except DecodeError Emoji :=
  if hasKey p "id" then Except.map Emoji.custom (deserialize_custom_emoji p)
  else Except.map Emoji.unicode (deserialize_unicode_emoji p)

/-- The outcome of a Python call site that may leave out an argument: a
required keyword-only parameter that the caller does not pass makes the
call itself fail (a TypeError raised by the language runtime), so the
decode body never runs at all. -/
inductive CallResult (α : Type) where
  | typeError
  | returned (value : α)
deriving DecidableEq

/-- A call site of `deserialize_known_custom_emoji` passing an optional
guild id: since the interface declares `guild_id` as a required
keyword-only parameter, leaving it unspecified is a calling error and
the decode body is never reached. -/
def call_deserialize_known_custom_emoji (p : JSONObject)
    (guild_id : UndefinedOr Snowflake) :
    CallResult (Except DecodeError KnownCustomEmoji) :=
  match guild_id with
  | .undefined => .typeError
  | .defined g => .returned (deserialize_known_custom_emoji p g)

example : deserialize_emoji [("name", .str "f")] = .ok (.unicode ⟨"f"⟩) := by decide

example : deserialize_emoji [("id", .str "123"), ("name", .str "pog"), ("animated", .bool true)]
    = .ok (.custom ⟨123, some "pog", true⟩) := by decide

example : deserialize_voice_state [("user_id", .str "7")] (.defined 456) .undefined
    = .error (.missingContext "member") := by decide

/-! ## The gateway guild aggregate -/

/-- The guild entity's own scalar fields (reduced to the identity-bearing
core needed by the aggregate claims). -/
structure GatewayGuild where
  id : Snowflake
  name : String
deriving DecidableEq

/-- The aggregate produced by the guild-create/update decode path,
mirroring `GatewayGuildDefinition` in src/: the guild plus four
*optional* mappings (channels, members, presences, voice states) that
are `none` when the corresponding array was not provided, and two
always-populated mappings (roles, emojis). -/
structure GatewayGuildDefinition where
  guild : GatewayGuild
  channels : Option (List (Snowflake × Channel))
  members : Option (List (Snowflake × Member))
  presences : Option (List (Snowflake × MemberPresence))
  roles : List (Snowflake × Role)
  emojis : List (Snowflake × KnownCustomEmoji)
  voice_states : Option (List (Snowflake × VoiceState))
deriving DecidableEq

/-- Decode every element of a JSON array as an object with the supplied
element decoder, failing the whole array on the first element error. -/
def decodeObjList (key : String) (f : JSONObject → Except DecodeError α) :
    List JSON → Except DecodeError (List α)
  | [] => .ok []
  | .obj o :: rest =>
    match f o with
    | .error e => .error e
    | .ok a =>
      match decodeObjList key f rest with
      | .error e => .error e
      | .ok as => .ok (a :: as)
  | _ :: _ => .error (.malformedPayload key)

/-- Decode a required entity array: a missing or ill-typed key is a
malformed payload (it is not a context field). -/
def requireEntityArray (p : JSONObject) (key : String)
    (f : JSONObject → Except DecodeError α) : Except DecodeError (List α) :=
  match lookupField p key with
  | some (.arr xs) => decodeObjList key f xs
  | some _ => .error (.malformedPayload key)
  | none => .error (.malformedPayload key)

/-- Decode an optional entity array: an absent key is the explicit "not
provided" state `none`, distinct from a present-but-empty array, which
decodes to `some []`. -/
def optionalEntityArray (p : JSONObject) (key : String)
    (f : JSONObject → Except DecodeError α) : Except DecodeError (Option (List α)) :=
  match lookupField p key with
  | none => .ok none
  | some (.arr xs) => Except.map some (decodeObjList key f xs)
  | some _ => .error (.malformedPayload key)

/-- Modelled from the spec: `deserialize_gateway_guild`, the §4.4
aggregate decomposition (implementation absent from src/).  Decodes the
guild's own fields, then roles and emojis (always), then each of the
four optional collections, supplying the guild's own id as injected
context to every element, and keys each mapping by the element's
identifier. -/
def deserialize_gateway_guild (p : JSONObject) :
    Except DecodeError GatewayGuildDefinition := do
  let gid ← requireSnowflake p "id"
  let gname ← requireString p "name"
  let roles ← requireEntityArray p "roles" (fun o => deserialize_role o gid)
  let emojis ← requireEntityArray p "emojis" (fun o => deserialize_known_custom_emoji o gid)
  let channels ← optionalEntityArray p "channels" (fun o => deserialize_channel o (.defined gid))
  let members ← optionalEntityArray p "members" (fun o => deserialize_member o .undefined (.defined gid))
  let presences ← optionalEntityArray p "presences" (fun o => deserialize_member_presence o (.defined gid))
  let vstates ← optionalEntityArray p "voice_states" (fun o => deserialize_voice_state o (.defined gid) .undefined)
  .ok
    { guild := ⟨gid, gname⟩
      channels := channels.map (List.map fun c => (c.channelId, c))
      members := members.map (List.map fun m => (m.user.id, m))
      presences := presences.map (List.map fun pr => (pr.userId, pr))
      roles := roles.map fun r => (r.id, r)
      emojis := emojis.map fun e => (e.id, e)
      voice_states := vstates.map (List.map fun v => (v.userId, v)) }

example :
    deserialize_gateway_guild
      [("id", .str "10"), ("name", .str "g"), ("roles", .arr []),
       ("emojis", .arr []), ("channels", .arr [])]
    = .ok ⟨⟨10, "g"⟩, some [], none, none, [], [], none⟩ := by decide

/-! ## Embed encoding and resource extraction -/

/-- An image reference inside an embed: either a remote URL or a local
binary attachment known by its filename. -/
inductive ImageRef where
  | remote (url : String)
  | attachment (filename : String)
deriving DecidableEq

/-- An embed footer: text plus an optional icon reference. -/
structure EmbedFooter where
  text : String
  icon : Option ImageRef
deriving DecidableEq

/-- A name/value field of an embed. -/
structure EmbedField where
  name : String
  value : String
  isInline : Bool
deriving DecidableEq

/-- An embed entity (title, description, fields, and the three
image-bearing slots: image, thumbnail, footer icon). -/
structure Embed where
  title : Option String
  description : Option String
  image : Option ImageRef
  thumbnail : Option ImageRef
  footer : Option EmbedFooter
  fields : List EmbedField
deriving DecidableEq

/-- A binary-resource handle that must be uploaded alongside the embed,
identified by its filename. -/
structure Resource where
  filename : String
deriving DecidableEq

/-- The URI scheme marking a placeholder that refers to an uploaded
companion resource. -/
def attachmentScheme : String := "attachment://"

/-- Whether a URL string is an attachment placeholder token. -/
def isAttachmentUrl (u : String) : Bool :=
  u.data.take attachmentScheme.data.length == attachmentScheme.data

/-- The placeholder token (the filename) carried by a URL string, when
the string is an attachment placeholder. -/
def tokenOfUrl (u : String) : List String :=
  if isAttachmentUrl u then [String.mk (u.data.drop attachmentScheme.data.length)] else []

/-- Serialize one image reference: a remote URL passes through with no
resource; a local attachment becomes a placeholder URL plus one
resource handle. -/
def serializeImageRef : ImageRef → String × List Resource
  | .remote u => (u, [])
  | .attachment f => (attachmentScheme ++ f, [⟨f⟩])

/-- The scalar (non-image) keys of a serialized embed: title,
description and the fields array. -/
def embedScalarFields (e : Embed) : JSONObject :=
  (match e.title with
   | some t => [("title", JSON.str t)]
   | none => []) ++
  (match e.description with
   | some d => [("description", JSON.str d)]
   | none => []) ++
  [("fields", JSON.arr (e.fields.map fun f =>
    JSON.obj [("name", .str f.name), ("value", .str f.value), ("inline", .bool f.isInline)]))]

/-- Serialize one optional image slot under the given key. -/
def imageSlotKV (key : String) : Option ImageRef → JSONObject × List Resource
  | some r => ([(key, JSON.obj [("url", JSON.str (serializeImageRef r).1)])], (serializeImageRef r).2)
  | none => ([], [])

/-- Serialize the optional footer (text plus optional icon URL). -/
def footerKV : Option EmbedFooter → JSONObject × List Resource
  | some f =>
    match f.icon with
    | some r =>
      ([("footer", JSON.obj [("text", JSON.str f.text),
        ("icon_url", JSON.str (serializeImageRef r).1)])], (serializeImageRef r).2)
    | none => ([("footer", JSON.obj [("text", JSON.str f.text)])], [])
  | none => ([], [])

/-- Modelled from the spec: `serialize_embed`, the §4.6 encode path
(implementation absent from src/).  Produces the JSON object plus the
ordered list of resource handles; the image, thumbnail and footer slots
are processed in that fixed order. -/
def serialize_embed (e : Embed) : JSONObject × List Resource :=
  (embedScalarFields e ++ (imageSlotKV "image" e.image).1
     ++ (imageSlotKV "thumbnail" e.thumbnail).1 ++ (footerKV e.footer).1,
   (imageSlotKV "image" e.image).2 ++ (imageSlotKV "thumbnail" e.thumbnail).2
     ++ (footerKV e.footer).2)

/-- The placeholder token carried by the given URL sub-field of the
given key of a serialized embed object, if any. -/
def urlPlaceholder (j : JSONObject) (key sub : String) : List String :=
  match lookupField j key with
  | some (.obj o) =>
    match lookupField o sub with
    | some (.str u) => tokenOfUrl u
    | _ => []
  | _ => []

/-- All placeholder tokens embedded in a serialized embed's image,
thumbnail and footer URL fields, in that order. -/
def embedPlaceholders (j : JSONObject) : List String :=
  urlPlaceholder j "image" "url" ++ urlPlaceholder j "thumbnail" "url"
    ++ urlPlaceholder j "footer" "icon_url"

/-- Whether an image reference is a genuine remote reference or
attachment: a remote URL must not itself spell the placeholder scheme. -/
def ImageRef.genuine : ImageRef → Bool
  | .remote u => !isAttachmentUrl u
  | .attachment _ => true

/-- Whether every image reference of the embed is genuine. -/
def Embed.genuineRefs (e : Embed) : Bool :=
  (match e.image with | some r => r.genuine | none => true) &&
  (match e.thumbnail with | some r => r.genuine | none => true) &&
  (match e.footer with
   | some f => match f.icon with | some r => r.genuine | none => true
   | none => true)

example :
    (serialize_embed ⟨some "t", none, some (.attachment "a.png"), some (.remote "http:x"),
        some ⟨"ft", some (.attachment "b.png")⟩, []⟩).2
    = [⟨"a.png"⟩, ⟨"b.png"⟩] := by decide

example :
    embedPlaceholders (serialize_embed ⟨some "t", none, some (.attachment "a.png"),
        some (.remote "http:x"), some ⟨"ft", some (.attachment "b.png")⟩, []⟩).1
    = ["a.png", "b.png"] := by decide

/-! ## General inversion lemmas for decode chains -/

theorem exceptBindOk {α β : Type} {x : Except DecodeError α}
    {f : α → Except DecodeError β} {b : β} (h : (x >>= f) = .ok b) :
    ∃ a, x = .ok a ∧ f a = .ok b := by
  cases x with
  | error e => simp [Bind.bind, Except.bind] at h
  | ok a => exact ⟨a, rfl, by simpa [Bind.bind, Except.bind] using h⟩

theorem exceptBindError {α β : Type} {x : Except DecodeError α}
    {f : α → Except DecodeError β} {e : DecodeError} (h : x = .error e) :
    (x >>= f) = .error e := by
  subst h; rfl

theorem exceptBindOkCongr {α β : Type} {x : Except DecodeError α}
    {f : α → Except DecodeError β} {a : α} (h : x = .ok a) :
    (x >>= f) = f a := by
  subst h; rfl

theorem resolveDefined (p : JSONObject) (key : String) (g : Snowflake) :
    resolveContextSnowflake p key (.defined g) = .ok g := rfl

theorem resolveAbsent (p : JSONObject) (key : String)
    (h : lookupField p key = none) :
    resolveContextSnowflake p key .undefined = .error (.missingContext key) := by
  simp [resolveContextSnowflake, h]

/-! ## Claim theorems -/

/-- C1: for every decode operation accepting an optional guild-id
context (the five guild channel kinds, member presences, members, voice
states), an explicitly supplied context value ends up verbatim as the
decoded entity's guild id, regardless of what the payload's same-named
field holds — the supplied context wins over any conflicting payload
value. -/
theorem c1_context_value_overrides_payload :
    (∀ p g c, deserialize_guild_text_channel p (.defined g) = .ok c → c.guildIdOf = some g) ∧
    (∀ p g c, deserialize_guild_category p (.defined g) = .ok c → c.guildIdOf = some g) ∧
    (∀ p g c, deserialize_guild_news_channel p (.defined g) = .ok c → c.guildIdOf = some g) ∧
    (∀ p g c, deserialize_guild_store_channel p (.defined g) = .ok c → c.guildIdOf = some g) ∧
    (∀ p g c, deserialize_guild_voice_channel p (.defined g) = .ok c → c.guildIdOf = some g) ∧
    (∀ p g u m, deserialize_member p u (.defined g) = .ok m → m.guildId = g) ∧
    (∀ p g pr, deserialize_member_presence p (.defined g) = .ok pr → pr.guildId = g) ∧
    (∀ p g mem v, deserialize_voice_state p (.defined g) mem = .ok v → v.guildId = g) := by
  refine ⟨?_, ?_, ?_, ?_, ?_, ?_, ?_, ?_⟩
  · intro p g c h
    unfold deserialize_guild_text_channel at h
    rw [exceptBindOkCongr (resolveDefined p "guild_id" g)] at h
    obtain ⟨base, _, h⟩ := exceptBindOk h
    obtain ⟨lm, _, h⟩ := exceptBindOk h
    cases h; rfl
  · intro p g c h
    unfold deserialize_guild_category at h
    rw [exceptBindOkCongr (resolveDefined p "guild_id" g)] at h
    obtain ⟨base, _, h⟩ := exceptBindOk h
    cases h; rfl
  · intro p g c h
    unfold deserialize_guild_news_channel at h
    rw [exceptBindOkCongr (resolveDefined p "guild_id" g)] at h
    obtain ⟨base, _, h⟩ := exceptBindOk h
    obtain ⟨lm, _, h⟩ := exceptBindOk h
    cases h; rfl
  · intro p g c h
    unfold deserialize_guild_store_channel at h
    rw [exceptBindOkCongr (resolveDefined p "guild_id" g)] at h
    obtain ⟨base, _, h⟩ := exceptBindOk h
    cases h; rfl
  · intro p g c h
    unfold deserialize_guild_voice_channel at h
    rw [exceptBindOkCongr (resolveDefined p "guild_id" g)] at h
    obtain ⟨base, _, h⟩ := exceptBindOk h
    cases h; rfl
  · intro p g u m h
    unfold deserialize_member at h
    rw [exceptBindOkCongr (resolveDefined p "guild_id" g)] at h
    obtain ⟨usr, _, h⟩ := exceptBindOk h
    cases h; rfl
  · intro p g pr h
    unfold deserialize_member_presence at h
    rw [exceptBindOkCongr (resolveDefined p "guild_id" g)] at h
    obtain ⟨uid, _, h⟩ := exceptBindOk h
    obtain ⟨status, _, h⟩ := exceptBindOk h
    cases h; rfl
  · intro p g mem v h
    unfold deserialize_voice_state at h
    rw [exceptBindOkCongr (resolveDefined p "guild_id" g)] at h
    obtain ⟨m, _, h⟩ := exceptBindOk h
    obtain ⟨uid, _, h⟩ := exceptBindOk h
    obtain ⟨cid, _, h⟩ := exceptBindOk h
    cases h; rfl

/-- C1 witness: a guild text channel payload carrying guild_id "999"
decoded with context 456, a presence payload carrying guild_id "999"
decoded with context 456, and a member payload carrying guild_id "999"
decoded with context 456, all report guild id 456. -/
theorem c1_witness :
    Channel.guildIdOf (.guildText ⟨1, 0, none⟩ 456 none) = some 456 ∧
    MemberPresence.guildId ⟨7, 456, "online"⟩ = 456 ∧
    Member.guildId ⟨⟨7, "u"⟩, 456, none⟩ = 456 := by
  refine ⟨?_, ?_, ?_⟩
  · exact c1_context_value_overrides_payload.1
      [("id", .str "1"), ("type", .num 0), ("guild_id", .str "999")] 456
      (.guildText ⟨1, 0, none⟩ 456 none) (by decide)
  · exact c1_context_value_overrides_payload.2.2.2.2.2.2.1
      [("user", .obj [("id", .str "7")]), ("status", .str "online"), ("guild_id", .str "999")] 456
      ⟨7, 456, "online"⟩ (by decide)
  · exact c1_context_value_overrides_payload.2.2.2.2.2.1
      [("user", .obj [("id", .str "7"), ("username", .str "u")]), ("guild_id", .str "999")] 456
      .undefined ⟨⟨7, "u"⟩, 456, none⟩ (by decide)

/-- C2: for every decode operation with a required guild-id context (the
five guild channel kinds, members, member presences), leaving the
context as the unspecified sentinel while the payload lacks the
"guild_id" key makes the operation fail with the missing-context error
for that field — it never substitutes a default value (the result is
exactly that error, not any entity). -/
theorem c2_missing_context_raises :
    (∀ p, lookupField p "guild_id" = none →
      deserialize_guild_text_channel p .undefined = .error (.missingContext "guild_id")) ∧
    (∀ p, lookupField p "guild_id" = none →
      deserialize_guild_category p .undefined = .error (.missingContext "guild_id")) ∧
    (∀ p, lookupField p "guild_id" = none →
      deserialize_guild_news_channel p .undefined = .error (.missingContext "guild_id")) ∧
    (∀ p, lookupField p "guild_id" = none →
      deserialize_guild_store_channel p .undefined = .error (.missingContext "guild_id")) ∧
    (∀ p, lookupField p "guild_id" = none →
      deserialize_guild_voice_channel p .undefined = .error (.missingContext "guild_id")) ∧
    (∀ p u, lookupField p "guild_id" = none →
      deserialize_member p u .undefined = .error (.missingContext "guild_id")) ∧
    (∀ p, lookupField p "guild_id" = none →
      deserialize_member_presence p .undefined = .error (.missingContext "guild_id")) := by
  refine ⟨?_, ?_, ?_, ?_, ?_, ?_, ?_⟩
  · intro p h
    unfold deserialize_guild_text_channel
    exact exceptBindError (resolveAbsent p "guild_id" h)
  · intro p h
    unfold deserialize_guild_category
    exact exceptBindError (resolveAbsent p "guild_id" h)
  · intro p h
    unfold deserialize_guild_news_channel
    exact exceptBindError (resolveAbsent p "guild_id" h)
  · intro p h
    unfold deserialize_guild_store_channel
    exact exceptBindError (resolveAbsent p "guild_id" h)
  · intro p h
    unfold deserialize_guild_voice_channel
    exact exceptBindError (resolveAbsent p "guild_id" h)
  · intro p u h
    unfold deserialize_member
    exact exceptBindError (resolveAbsent p "guild_id" h)
  · intro p h
    unfold deserialize_member_presence
    exact exceptBindError (resolveAbsent p "guild_id" h)

/-- C2 witness: a guild text channel payload without a "guild_id" key
decoded with the unspecified sentinel fails with the missing-context
error, and likewise for a presence payload. -/
theorem c2_witness :
    deserialize_guild_text_channel [("id", .str "1"), ("type", .num 0)] .undefined
      = .error (.missingContext "guild_id") ∧
    deserialize_member_presence [("user", .obj [("id", .str "7")]), ("status", .str "online")]
      .undefined = .error (.missingContext "guild_id") := by
  refine ⟨?_, ?_⟩
  · exact c2_missing_context_raises.1 [("id", .str "1"), ("type", .num 0)] rfl
  · exact c2_missing_context_raises.2.2.2.2.2.2
      [("user", .obj [("id", .str "7")]), ("status", .str "online")] rfl

theorem exceptBindErrorInv {α β : Type} {x : Except DecodeError α}
    {f : α → Except DecodeError β} {e : DecodeError} (h : (x >>= f) = .error e) :
    x = .error e ∨ ∃ a, x = .ok a ∧ f a = .error e := by
  cases x with
  | error e2 => left; simpa [Bind.bind, Except.bind] using h
  | ok a => right; exact ⟨a, rfl, by simpa [Bind.bind, Except.bind] using h⟩

theorem exceptMapOk {α β : Type} {g : α → β} {x : Except DecodeError α} {b : β}
    (h : Except.map g x = .ok b) : ∃ a, x = .ok a ∧ b = g a := by
  cases x with
  | error e => simp [Except.map] at h
  | ok a => exact ⟨a, rfl, by simpa [Except.map] using h.symm⟩

theorem requireSnowflake_error {p : JSONObject} {k : String} {e : DecodeError}
    (h : requireSnowflake p k = .error e) : e = .malformedPayload k := by
  unfold requireSnowflake at h
  split at h
  · split at h <;> simp_all
  · simp_all
  · simp_all

theorem requireInt_error {p : JSONObject} {k : String} {e : DecodeError}
    (h : requireInt p k = .error e) : e = .malformedPayload k := by
  unfold requireInt at h
  split at h <;> simp_all

theorem requireString_error {p : JSONObject} {k : String} {e : DecodeError}
    (h : requireString p k = .error e) : e = .malformedPayload k := by
  unfold requireString at h
  split at h <;> simp_all

theorem optSnowflakeField_error {p : JSONObject} {k : String} {e : DecodeError}
    (h : optSnowflakeField p k = .error e) : e = .malformedPayload k := by
  unfold optSnowflakeField at h
  split at h
  · simp_all
  · simp_all
  · split at h <;> simp_all
  · simp_all

theorem deserialize_partial_channel_error {p : JSONObject} {e : DecodeError}
    (h : deserialize_partial_channel p = .error e) : ∃ f, e = .malformedPayload f := by
  unfold deserialize_partial_channel at h
  rcases exceptBindErrorInv h with h | ⟨idv, _, h⟩
  · exact ⟨"id", requireSnowflake_error h⟩
  · rcases exceptBindErrorInv h with h | ⟨t, _, h⟩
    · exact ⟨"type", requireInt_error h⟩
    · simp at h

theorem deserialize_private_text_channel_error {p : JSONObject} {e : DecodeError}
    (h : deserialize_private_text_channel p = .error e) : ∃ f, e = .malformedPayload f := by
  unfold deserialize_private_text_channel at h
  rcases exceptBindErrorInv h with h | ⟨b, _, h⟩
  · exact deserialize_partial_channel_error h
  · rcases exceptBindErrorInv h with h | ⟨lm, _, h⟩
    · exact ⟨"last_message_id", optSnowflakeField_error h⟩
    · simp at h

theorem deserialize_private_group_text_channel_error {p : JSONObject} {e : DecodeError}
    (h : deserialize_private_group_text_channel p = .error e) : ∃ f, e = .malformedPayload f := by
  unfold deserialize_private_group_text_channel at h
  rcases exceptBindErrorInv h with h | ⟨b, _, h⟩
  · exact deserialize_partial_channel_error h
  · rcases exceptBindErrorInv h with h | ⟨lm, _, h⟩
    · exact ⟨"last_message_id", optSnowflakeField_error h⟩
    · simp at h

/-- C3: the single-entry-point channel decode dispatches purely on the
integer "type" discriminant: each of the 7 known values (0 guild text,
1 DM, 2 guild voice, 3 group DM, 4 category, 5 news, 6 store) routes to
the decoder of the matching variant, whose successful result carries
that variant's tag; any other integer routes to the generic partial
decode, whose successful result is the untagged partial shape, with no
error raised by the dispatch itself. -/
theorem c3_channel_dispatch_on_discriminant :
    (∀ p g, requireInt p "type" = .ok 0 →
      deserialize_channel p g = deserialize_guild_text_channel p g) ∧
    (∀ p g, requireInt p "type" = .ok 1 →
      deserialize_channel p g = deserialize_private_text_channel p) ∧
    (∀ p g, requireInt p "type" = .ok 2 →
      deserialize_channel p g = deserialize_guild_voice_channel p g) ∧
    (∀ p g, requireInt p "type" = .ok 3 →
      deserialize_channel p g = deserialize_private_group_text_channel p) ∧
    (∀ p g, requireInt p "type" = .ok 4 →
      deserialize_channel p g = deserialize_guild_category p g) ∧
    (∀ p g, requireInt p "type" = .ok 5 →
      deserialize_channel p g = deserialize_guild_news_channel p g) ∧
    (∀ p g, requireInt p "type" = .ok 6 →
      deserialize_channel p g = deserialize_guild_store_channel p g) ∧
    (∀ p g t, requireInt p "type" = .ok t →
      t ≠ 0 → t ≠ 1 → t ≠ 2 → t ≠ 3 → t ≠ 4 → t ≠ 5 → t ≠ 6 →
      deserialize_channel p g = Except.map Channel.partialOnly (deserialize_partial_channel p)) ∧
    (∀ p g c, deserialize_guild_text_channel p g = .ok c → c.tag = .guildText) ∧
    (∀ p c, deserialize_private_text_channel p = .ok c → c.tag = .privateText) ∧
    (∀ p g c, deserialize_guild_voice_channel p g = .ok c → c.tag = .guildVoice) ∧
    (∀ p c, deserialize_private_group_text_channel p = .ok c → c.tag = .groupPrivateText) ∧
    (∀ p g c, deserialize_guild_category p g = .ok c → c.tag = .guildCategory) ∧
    (∀ p g c, deserialize_guild_news_channel p g = .ok c → c.tag = .guildNews) ∧
    (∀ p g c, deserialize_guild_store_channel p g = .ok c → c.tag = .guildStore) ∧
    (∀ p c, Except.map Channel.partialOnly (deserialize_partial_channel p) = .ok c →
      c.tag = .partialOnly) := by
  refine ⟨?_, ?_, ?_, ?_, ?_, ?_, ?_, ?_, ?_, ?_, ?_, ?_, ?_, ?_, ?_, ?_⟩
  · intro p g h; unfold deserialize_channel; rw [h]; simp
  · intro p g h; unfold deserialize_channel; rw [h]; simp
  · intro p g h; unfold deserialize_channel; rw [h]; simp
  · intro p g h; unfold deserialize_channel; rw [h]; simp
  · intro p g h; unfold deserialize_channel; rw [h]; simp
  · intro p g h; unfold deserialize_channel; rw [h]; simp
  · intro p g h; unfold deserialize_channel; rw [h]; simp
  · intro p g t h h0 h1 h2 h3 h4 h5 h6
    unfold deserialize_channel; rw [h]; simp [h0, h1, h2, h3, h4, h5, h6]
  · intro p g c h
    unfold deserialize_guild_text_channel at h
    obtain ⟨gid, _, h⟩ := exceptBindOk h
    obtain ⟨b, _, h⟩ := exceptBindOk h
    obtain ⟨lm, _, h⟩ := exceptBindOk h
    cases h; rfl
  · intro p c h
    unfold deserialize_private_text_channel at h
    obtain ⟨b, _, h⟩ := exceptBindOk h
    obtain ⟨lm, _, h⟩ := exceptBindOk h
    cases h; rfl
  · intro p g c h
    unfold deserialize_guild_voice_channel at h
    obtain ⟨gid, _, h⟩ := exceptBindOk h
    obtain ⟨b, _, h⟩ := exceptBindOk h
    cases h; rfl
  · intro p c h
    unfold deserialize_private_group_text_channel at h
    obtain ⟨b, _, h⟩ := exceptBindOk h
    obtain ⟨lm, _, h⟩ := exceptBindOk h
    cases h; rfl
  · intro p g c h
    unfold deserialize_guild_category at h
    obtain ⟨gid, _, h⟩ := exceptBindOk h
    obtain ⟨b, _, h⟩ := exceptBindOk h
    cases h; rfl
  · intro p g c h
    unfold deserialize_guild_news_channel at h
    obtain ⟨gid, _, h⟩ := exceptBindOk h
    obtain ⟨b, _, h⟩ := exceptBindOk h
    obtain ⟨lm, _, h⟩ := exceptBindOk h
    cases h; rfl
  · intro p g c h
    unfold deserialize_guild_store_channel at h
    obtain ⟨gid, _, h⟩ := exceptBindOk h
    obtain ⟨b, _, h⟩ := exceptBindOk h
    cases h; rfl
  · intro p c h
    obtain ⟨b, _, h⟩ := exceptMapOk h
    subst h; rfl

/-- C3 witness: a payload with discriminant 0 dispatches to the guild
text decoder; one with unrecognized discriminant 99 yields the untagged
partial shape with no error. -/
theorem c3_witness :
    deserialize_channel [("id", .str "1"), ("type", .num 0), ("guild_id", .str "9")] .undefined
      = deserialize_guild_text_channel [("id", .str "1"), ("type", .num 0), ("guild_id", .str "9")]
        .undefined ∧
    deserialize_channel [("id", .str "1"), ("type", .num 99)] .undefined
      = Except.map Channel.partialOnly
        (deserialize_partial_channel [("id", .str "1"), ("type", .num 99)]) ∧
    Channel.tag (.partialOnly ⟨1, 99, none⟩) = .partialOnly := by
  refine ⟨?_, ?_, ?_⟩
  · exact c3_channel_dispatch_on_discriminant.1
      [("id", .str "1"), ("type", .num 0), ("guild_id", .str "9")] .undefined (by decide)
  · exact c3_channel_dispatch_on_discriminant.2.2.2.2.2.2.2.1
      [("id", .str "1"), ("type", .num 99)] .undefined 99 (by decide)
      (by decide) (by decide) (by decide) (by decide) (by decide) (by decide) (by decide)
  · exact c3_channel_dispatch_on_discriminant.2.2.2.2.2.2.2.2.2.2.2.2.2.2.2
      [("id", .str "1"), ("type", .num 99)] (.partialOnly ⟨1, 99, none⟩) (by decide)

/-- C5: the emoji dispatch decides the variant solely by presence of the
"id" key: without the key the decode is exactly the unicode decode, with
it exactly the custom decode, and any successfully decoded emoji is the
unicode variant precisely when the key was absent. -/
theorem c5_emoji_dispatch_by_id_presence :
    (∀ p, hasKey p "id" = false →
      deserialize_emoji p = Except.map Emoji.unicode (deserialize_unicode_emoji p)) ∧
    (∀ p, hasKey p "id" = true →
      deserialize_emoji p = Except.map Emoji.custom (deserialize_custom_emoji p)) ∧
    (∀ p e, deserialize_emoji p = .ok e → e.isUnicode = !hasKey p "id") := by
  refine ⟨?_, ?_, ?_⟩
  · intro p h; unfold deserialize_emoji; rw [h]; simp
  · intro p h; unfold deserialize_emoji; rw [h]; simp
  · intro p e h
    unfold deserialize_emoji at h
    cases hk : hasKey p "id" <;> rw [hk] at h <;> simp at h
    · obtain ⟨a, _, h⟩ := exceptMapOk h
      subst h; rfl
    · obtain ⟨a, _, h⟩ := exceptMapOk h
      subst h; rfl

/-- C5 witness: the minimal unicode payload decodes to the unicode
variant and the custom payload with an "id" key decodes to the custom
variant, in both cases through the variant-specific decoder. -/
theorem c5_witness :
    deserialize_emoji [("name", .str "fire")]
      = Except.map Emoji.unicode (deserialize_unicode_emoji [("name", .str "fire")]) ∧
    deserialize_emoji [("id", .str "123"), ("name", .str "pog"), ("animated", .bool true)]
      = Except.map Emoji.custom
        (deserialize_custom_emoji
          [("id", .str "123"), ("name", .str "pog"), ("animated", .bool true)]) ∧
    Emoji.isUnicode (.custom ⟨123, some "pog", true⟩)
      = !hasKey [("id", .str "123"), ("name", .str "pog"), ("animated", .bool true)] "id" := by
  refine ⟨?_, ?_, ?_⟩
  · exact c5_emoji_dispatch_by_id_presence.1 [("name", .str "fire")] (by decide)
  · exact c5_emoji_dispatch_by_id_presence.2.1
      [("id", .str "123"), ("name", .str "pog"), ("animated", .bool true)] (by decide)
  · exact c5_emoji_dispatch_by_id_presence.2.2
      [("id", .str "123"), ("name", .str "pog"), ("animated", .bool true)]
      (.custom ⟨123, some "pog", true⟩) (by decide)

theorem deserialize_channel_dm (p : JSONObject) (g : UndefinedOr Snowflake)
    (h : requireInt p "type" = .ok 1) :
    deserialize_channel p g = deserialize_private_text_channel p := by
  unfold deserialize_channel; rw [h]; simp

theorem deserialize_channel_group (p : JSONObject) (g : UndefinedOr Snowflake)
    (h : requireInt p "type" = .ok 3) :
    deserialize_channel p g = deserialize_private_group_text_channel p := by
  unfold deserialize_channel; rw [h]; simp

/-- C10: for a payload whose discriminant selects the DM (1) or group-DM
(3) variant, the single-entry-point decode is independent of the
guild-id context: any supplied context yields the same result as the
unspecified sentinel, and the decode never fails with a missing-context
error. -/
theorem c10_private_channels_ignore_guild_context :
    ∀ p g, (requireInt p "type" = .ok 1 ∨ requireInt p "type" = .ok 3) →
      deserialize_channel p (.defined g) = deserialize_channel p .undefined ∧
      ∀ f, deserialize_channel p (.defined g) ≠ .error (.missingContext f) := by
  intro p g h
  rcases h with h | h
  · constructor
    · unfold deserialize_channel; rw [h]; simp
    · intro f hc
      rw [deserialize_channel_dm p (.defined g) h] at hc
      obtain ⟨f2, hf⟩ := deserialize_private_text_channel_error hc
      simp at hf
  · constructor
    · unfold deserialize_channel; rw [h]; simp
    · intro f hc
      rw [deserialize_channel_group p (.defined g) h] at hc
      obtain ⟨f2, hf⟩ := deserialize_private_group_text_channel_error hc
      simp at hf

/-- C10 witness: a DM payload decoded with context guild id 456 equals
the decode with the unspecified sentinel, and is not a missing-context
failure. -/
theorem c10_witness :
    deserialize_channel [("id", .str "1"), ("type", .num 1)] (.defined 456)
      = deserialize_channel [("id", .str "1"), ("type", .num 1)] .undefined ∧
    ∀ f, deserialize_channel [("id", .str "1"), ("type", .num 1)] (.defined 456)
      ≠ .error (.missingContext f) :=
  c10_private_channels_ignore_guild_context
    [("id", .str "1"), ("type", .num 1)] 456 (Or.inl (by decide))

/-- C6: voice-state decode resolves the guild id and the member each
from two independent sources with context precedence: a supplied guild
id or member context ends up verbatim in the result; with no guild
source at all the decode fails on the guild id; with the guild id
resolved but no member source it fails on the member, and the two
failures are distinct error values. -/
theorem c6_voice_state_two_source_resolution :
    (∀ p g mem v, deserialize_voice_state p (.defined g) mem = .ok v → v.guildId = g) ∧
    (∀ p gctx m v, deserialize_voice_state p gctx (.defined m) = .ok v → v.member = m) ∧
    (∀ p mem, lookupField p "guild_id" = none →
      deserialize_voice_state p .undefined mem = .error (.missingContext "guild_id")) ∧
    (∀ p g, lookupField p "member" = none →
      deserialize_voice_state p (.defined g) .undefined = .error (.missingContext "member")) ∧
    DecodeError.missingContext "member" ≠ DecodeError.missingContext "guild_id" := by
  refine ⟨?_, ?_, ?_, ?_, by decide⟩
  · intro p g mem v h
    unfold deserialize_voice_state at h
    rw [exceptBindOkCongr (resolveDefined p "guild_id" g)] at h
    obtain ⟨m, _, h⟩ := exceptBindOk h
    obtain ⟨uid, _, h⟩ := exceptBindOk h
    obtain ⟨cid, _, h⟩ := exceptBindOk h
    cases h; rfl
  · intro p gctx m v h
    unfold deserialize_voice_state at h
    obtain ⟨gid, _, h⟩ := exceptBindOk h
    obtain ⟨mem, hm, h⟩ := exceptBindOk h
    rw [show resolveVoiceStateMember p (.defined m) gid = .ok m from rfl] at hm
    cases hm
    obtain ⟨uid, _, h⟩ := exceptBindOk h
    obtain ⟨cid, _, h⟩ := exceptBindOk h
    cases h; rfl
  · intro p mem h
    unfold deserialize_voice_state
    exact exceptBindError (resolveAbsent p "guild_id" h)
  · intro p g h
    unfold deserialize_voice_state
    rw [exceptBindOkCongr (resolveDefined p "guild_id" g)]
    exact exceptBindError (by simp [resolveVoiceStateMember, h])

/-- C6 witness: with guild context 456 and member context supplied, the
decoded voice state carries both; with neither guild source the decode
fails on guild_id; with guild 456 supplied but no member source it
fails on member. -/
theorem c6_witness :
    VoiceState.guildId ⟨456, none, 7, ⟨⟨7, "u"⟩, 456, none⟩⟩ = 456 ∧
    deserialize_voice_state [("user_id", .str "7")] .undefined .undefined
      = .error (.missingContext "guild_id") ∧
    deserialize_voice_state [("user_id", .str "7")] (.defined 456) .undefined
      = .error (.missingContext "member") := by
  refine ⟨?_, ?_, ?_⟩
  · exact c6_voice_state_two_source_resolution.1
      [("user_id", .str "7")] 456 (.defined ⟨⟨7, "u"⟩, 456, none⟩)
      ⟨456, none, 7, ⟨⟨7, "u"⟩, 456, none⟩⟩ (by decide)
  · exact c6_voice_state_two_source_resolution.2.2.1 [("user_id", .str "7")] .undefined rfl
  · exact c6_voice_state_two_source_resolution.2.2.2.1 [("user_id", .str "7")] 456 rfl

/-- C8 counterexample: the claim's fallback clause fails on the code.
The interface declares `deserialize_known_custom_emoji`'s guild_id as a
required keyword-only parameter, so "no context guild id supplied" makes
the call itself fail before the decode body runs; on the concrete
payload carrying guild_id "999", the unspecified-context call is a call
error and does not return the emoji that the payload-fallback reading
would predict (guild id 999 read from the payload). -/
theorem c8_counterexample :
    call_deserialize_known_custom_emoji
        [("id", .str "1"), ("name", .str "x"), ("guild_id", .str "999")] .undefined
      = .typeError ∧
    call_deserialize_known_custom_emoji
        [("id", .str "1"), ("name", .str "x"), ("guild_id", .str "999")] .undefined
      ≠ .returned (.ok ⟨1, some "x", false, 999, none⟩) := by
  exact ⟨rfl, by decide⟩

/-- C8 (amended): the known-custom-emoji decode takes a mandatory
guild-id context; the decoded emoji's guild id is always the supplied
context value, so it overrides any same-named payload field; the context
cannot be left unspecified (doing so is a calling error), hence no
payload-fallback path exists. -/
theorem c8_known_custom_emoji_context_guild_id :
    (∀ p g e, deserialize_known_custom_emoji p g = .ok e → e.guildId = g) ∧
    (∀ p g, call_deserialize_known_custom_emoji p (.defined g)
      = .returned (deserialize_known_custom_emoji p g)) ∧
    (∀ p, call_deserialize_known_custom_emoji p .undefined = .typeError) := by
  refine ⟨?_, fun p g => rfl, fun p => rfl⟩
  intro p g e h
  unfold deserialize_known_custom_emoji at h
  obtain ⟨id, _, h⟩ := exceptBindOk h
  obtain ⟨name, _, h⟩ := exceptBindOk h
  obtain ⟨user, _, h⟩ := exceptBindOk h
  cases h; rfl

/-- C8 witness: decoding the payload carrying guild_id "999" with the
mandatory context 456 yields an emoji whose guild id is 456, not the
payload's 999. -/
theorem c8_witness :
    KnownCustomEmoji.guildId ⟨1, some "x", false, 456, none⟩ = 456 :=
  c8_known_custom_emoji_context_guild_id.1
    [("id", .str "1"), ("name", .str "x"), ("guild_id", .str "999")] 456
    ⟨1, some "x", false, 456, none⟩ (by decide)

/-- C4: in the guild aggregate decode, each of the four optional
collections (channels, members, presences, voice states) is the
explicit "not provided" state when its array key is absent from the
payload, and the empty mapping when the key is present with an empty
array; the two states are distinct in equality. -/
theorem c4_aggregate_absent_vs_empty :
    (∀ p d, deserialize_gateway_guild p = .ok d →
      (lookupField p "channels" = none → d.channels = none) ∧
      (lookupField p "channels" = some (.arr []) → d.channels = some []) ∧
      (lookupField p "members" = none → d.members = none) ∧
      (lookupField p "members" = some (.arr []) → d.members = some []) ∧
      (lookupField p "presences" = none → d.presences = none) ∧
      (lookupField p "presences" = some (.arr []) → d.presences = some []) ∧
      (lookupField p "voice_states" = none → d.voice_states = none) ∧
      (lookupField p "voice_states" = some (.arr []) → d.voice_states = some [])) ∧
    (none : Option (List (Snowflake × Member))) ≠ some [] := by
  refine ⟨?_, by simp⟩
  intro p d h
  unfold deserialize_gateway_guild at h
  obtain ⟨gid, _, h⟩ := exceptBindOk h
  obtain ⟨gname, _, h⟩ := exceptBindOk h
  obtain ⟨roles, _, h⟩ := exceptBindOk h
  obtain ⟨emojis, _, h⟩ := exceptBindOk h
  obtain ⟨chs, hch, h⟩ := exceptBindOk h
  obtain ⟨mems, hmem, h⟩ := exceptBindOk h
  obtain ⟨prs, hpr, h⟩ := exceptBindOk h
  obtain ⟨vss, hvs, h⟩ := exceptBindOk h
  cases h
  refine ⟨?_, ?_, ?_, ?_, ?_, ?_, ?_, ?_⟩ <;> intro hx
  · simp [optionalEntityArray, hx] at hch; simp [← hch]
  · simp [optionalEntityArray, hx, decodeObjList, Except.map] at hch; simp [← hch]
  · simp [optionalEntityArray, hx] at hmem; simp [← hmem]
  · simp [optionalEntityArray, hx, decodeObjList, Except.map] at hmem; simp [← hmem]
  · simp [optionalEntityArray, hx] at hpr; simp [← hpr]
  · simp [optionalEntityArray, hx, decodeObjList, Except.map] at hpr; simp [← hpr]
  · simp [optionalEntityArray, hx] at hvs; simp [← hvs]
  · simp [optionalEntityArray, hx, decodeObjList, Except.map] at hvs; simp [← hvs]

/-- C4 witness: the guild-create payload with an empty channels array
and no members key decodes to an aggregate with an empty channel mapping
and a "not provided" member mapping, and those two states differ. -/
theorem c4_witness :
    GatewayGuildDefinition.channels ⟨⟨10, "g"⟩, some [], none, none, [], [], none⟩ = some [] ∧
    GatewayGuildDefinition.members ⟨⟨10, "g"⟩, some [], none, none, [], [], none⟩ = none := by
  have h := c4_aggregate_absent_vs_empty.1
    [("id", .str "10"), ("name", .str "g"), ("roles", .arr []),
     ("emojis", .arr []), ("channels", .arr [])]
    ⟨⟨10, "g"⟩, some [], none, none, [], [], none⟩ (by decide)
  exact ⟨h.2.1 rfl, h.2.2.1 rfl⟩

/-- C9: every decode operation is all-or-nothing: for every payload and
context the result is either a fully constructed entity or an error, and
every error is one of the two documented kinds (missing context or
malformed payload); no partially populated entity value exists as a
third outcome. -/
theorem c9_decode_all_or_nothing :
    (∀ p g, (∃ c, deserialize_channel p g = .ok c) ∨
      ∃ e2, deserialize_channel p g = .error e2) ∧
    (∀ p u g, (∃ m, deserialize_member p u g = .ok m) ∨
      ∃ e2, deserialize_member p u g = .error e2) ∧
    (∀ p g, (∃ pr, deserialize_member_presence p g = .ok pr) ∨
      ∃ e2, deserialize_member_presence p g = .error e2) ∧
    (∀ p g m, (∃ v, deserialize_voice_state p g m = .ok v) ∨
      ∃ e2, deserialize_voice_state p g m = .error e2) ∧
    (∀ p, (∃ em, deserialize_emoji p = .ok em) ∨
      ∃ e2, deserialize_emoji p = .error e2) ∧
    (∀ p g, (∃ em, deserialize_known_custom_emoji p g = .ok em) ∨
      ∃ e2, deserialize_known_custom_emoji p g = .error e2) ∧
    (∀ p, (∃ d, deserialize_gateway_guild p = .ok d) ∨
      ∃ e2, deserialize_gateway_guild p = .error e2) ∧
    (∀ e2 : DecodeError, (∃ f, e2 = .missingContext f) ∨
      ∃ f, e2 = .malformedPayload f) := by
  refine ⟨?_, ?_, ?_, ?_, ?_, ?_, ?_, ?_⟩
  · intro p g
    cases h : deserialize_channel p g with
    | ok c => exact .inl ⟨c, rfl⟩
    | error e2 => exact .inr ⟨e2, rfl⟩
  · intro p u g
    cases h : deserialize_member p u g with
    | ok m => exact .inl ⟨m, rfl⟩
    | error e2 => exact .inr ⟨e2, rfl⟩
  · intro p g
    cases h : deserialize_member_presence p g with
    | ok pr => exact .inl ⟨pr, rfl⟩
    | error e2 => exact .inr ⟨e2, rfl⟩
  · intro p g m
    cases h : deserialize_voice_state p g m with
    | ok v => exact .inl ⟨v, rfl⟩
    | error e2 => exact .inr ⟨e2, rfl⟩
  · intro p
    cases h : deserialize_emoji p with
    | ok em => exact .inl ⟨em, rfl⟩
    | error e2 => exact .inr ⟨e2, rfl⟩
  · intro p g
    cases h : deserialize_known_custom_emoji p g with
    | ok em => exact .inl ⟨em, rfl⟩
    | error e2 => exact .inr ⟨e2, rfl⟩
  · intro p
    cases h : deserialize_gateway_guild p with
    | ok d => exact .inl ⟨d, rfl⟩
    | error e2 => exact .inr ⟨e2, rfl⟩
  · intro e2
    cases e2 with
    | missingContext f => exact .inl ⟨f, rfl⟩
    | malformedPayload f => exact .inr ⟨f, rfl⟩

theorem stringDataAppend (a b : String) : (a ++ b).data = a.data ++ b.data := by
  cases a; cases b; rfl

theorem tokenOfUrl_placeholder (f : String) :
    tokenOfUrl (attachmentScheme ++ f) = [f] := by
  unfold tokenOfUrl isAttachmentUrl
  rw [stringDataAppend, List.take_left, List.drop_left]
  simp

theorem tokenOfUrl_genuine {u : String} (h : isAttachmentUrl u = false) :
    tokenOfUrl u = [] := by
  simp [tokenOfUrl, h]

theorem lookupField_append (a b : JSONObject) (k : String) :
    lookupField (a ++ b) k = ((lookupField a k).orElse fun _ => lookupField b k) := by
  induction a with
  | nil => simp [lookupField, Option.orElse]
  | cons kv rest ih =>
    obtain ⟨k2, v⟩ := kv
    by_cases hk : k2 = k <;> simp [lookupField, hk, ih, Option.orElse]

theorem embedScalarFields_no_slots (e : Embed) (key : String)
    (h1 : key ≠ "title") (h2 : key ≠ "description") (h3 : key ≠ "fields") :
    lookupField (embedScalarFields e) key = none := by
  unfold embedScalarFields
  cases e.title <;> cases e.description <;>
    simp [lookupField_append, lookupField, Option.orElse, Ne.symm h1, Ne.symm h2, Ne.symm h3]

/-- C7: embed encoding is deterministic — encoding the same embed twice
yields identical JSON and identical ordered resource lists — and, for
every embed whose remote URLs do not themselves spell the placeholder
scheme, the resource list's filenames are exactly the placeholder tokens
embedded in the serialized JSON's image, thumbnail and footer URL
fields, in that order. -/
theorem c7_embed_encode_deterministic :
    ∀ e : Embed, serialize_embed e = serialize_embed e ∧
      (e.genuineRefs = true →
        (serialize_embed e).2.map Resource.filename
          = embedPlaceholders (serialize_embed e).1) := by
  intro e
  refine ⟨rfl, ?_⟩
  intro hg
  obtain ⟨t, d, img, th, ft, fs⟩ := e
  rcases img with _ | (u1 | f1) <;> rcases th with _ | (u2 | f2) <;>
    rcases ft with _ | ⟨ftxt, _ | (u3 | f3)⟩ <;>
  simp_all [serialize_embed, imageSlotKV, footerKV, serializeImageRef,
    embedPlaceholders, urlPlaceholder, lookupField_append, embedScalarFields_no_slots,
    lookupField, Option.orElse, tokenOfUrl_placeholder, tokenOfUrl_genuine,
    Embed.genuineRefs, ImageRef.genuine]

/-- C7 witness: an embed with a local image attachment, a remote
thumbnail and a local footer icon is genuine, and the correspondence
instantiates to the concrete resource and token lists. -/
theorem c7_witness :
    Embed.genuineRefs ⟨some "t", none, some (.attachment "a.png"),
        some (.remote "http:x"), some ⟨"ft", some (.attachment "b.png")⟩, []⟩ = true ∧
    (serialize_embed ⟨some "t", none, some (.attachment "a.png"),
        some (.remote "http:x"), some ⟨"ft", some (.attachment "b.png")⟩, []⟩).2.map
      Resource.filename
      = embedPlaceholders (serialize_embed ⟨some "t", none, some (.attachment "a.png"),
        some (.remote "http:x"), some ⟨"ft", some (.attachment "b.png")⟩, []⟩).1 :=
  ⟨by decide,
   (c7_embed_encode_deterministic ⟨some "t", none, some (.attachment "a.png"),
      some (.remote "http:x"), some ⟨"ft", some (.attachment "b.png")⟩, []⟩).2 (by decide)⟩

end EntityFactory
